import Mathlib

/-!
Shallow embedding of the submission-lifecycle and assignment-lifecycle
routes of the AssignmentEvaluator backend, from
src/backend/routes/student.py and src/backend/routes/teacher.py.

Database tables are lists of row records, the Supabase blob store is a
list of (bucket, key) pairs, and every route handler is a pure function
from the request data and the current state to an HTTP status, a
response payload and the new state.  Environmental inputs of a handler
are explicit parameters: the time-derived storage key that the handler
would compute from time.time and the sanitized filename, whether the
blob upload raises, and whether a blob removal raises.  Database
statements are assumed to succeed and the model carries no table
constraints; blob failures are explicit because the routes branch on
them.  Timestamp casting of the deadline text is not modelled: the
deadline is carried as opaque text.
-/

/-- A row of the submissions table, with the columns the routes read and
write.  Nullable columns are options; ids are integers. -/
structure SubmissionRow where
  submission_id : Int
  assignment_id : Int
  student_id : String
  file_url : Option String
  student_comments : Option String
  marks : Option ℚ
  feedback : Option String
  submitted_at : Nat
deriving DecidableEq

/-- A row of the assignments table. -/
structure AssignmentRow where
  assignment_id : Int
  title : String
  description : Option String
  teacher_id : String
  deadline : Option String
  max_marks : Option Int
  file_url : Option String
  subject : Option String
deriving DecidableEq

/-- The durable state: both tables of the relational store plus the set
of objects present in the Supabase blob store, as (bucket, key) pairs. -/
structure AppState where
  assignments : List AssignmentRow
  submissions : List SubmissionRow
  blobs : List (String × String)
deriving DecidableEq

/-- Storage upload: adds the object to the bucket. -/
def uploadBlob (blobs : List (String × String)) (bucket key : String) :
    List (String × String) :=
  blobs ++ [(bucket, key)]

/-- Storage remove: drops the object from the bucket. -/
def removeBlob (blobs : List (String × String)) (bucket key : String) :
    List (String × String) :=
  blobs.filter (fun b => !(b.1 == bucket && b.2 == key))

/-- The public URL that get_public_url returns for a bucket object: an
URL whose trailing path segment is the storage key. -/
def publicUrl (bucket key : String) : String :=
  "https://x/" ++ bucket ++ "/" ++ key

/-- The Python idiom url.split on slash, last element: the trailing path
segment of a URL (the whole string when it has no slash), used by the
routes to recover the storage key. -/
def lastSegment (url : String) : String :=
  ⟨(url.data.reverse.takeWhile (fun c => c != '/')).reverse⟩

/-- Python truthiness of a nullable string: None and the empty string
are falsy. -/
def strTruthy : Option String → Bool
  | none => false
  | some s => !s.isEmpty

/-- Whitespace for the Python strip method. -/
def isSpaceChar (c : Char) : Bool :=
  c == ' ' || c == '\t' || c == '\n' || c == '\r'

/-- The Python strip method: removes leading and trailing whitespace. -/
def pyStrip (s : String) : String :=
  ⟨((s.data.dropWhile isSpaceChar).reverse.dropWhile isSpaceChar).reverse⟩

/-- The value of a decimal digit string, none when a character is not a
digit.  An empty list gives zero; callers reject it where Python
would. -/
def decDigits? (l : List Char) : Option Nat :=
  l.foldlM (fun acc c =>
    if c.isDigit then some (acc * 10 + (c.toNat - 48)) else none) 0

/-- The Python int builtin on a string: parses an optionally signed
string of decimal digits after stripping surrounding whitespace,
raising (here: none) otherwise. -/
def pyInt? (s : String) : Option Int :=
  match (pyStrip s).data with
  | [] => none
  | '-' :: rest =>
    if rest.isEmpty then none
    else (decDigits? rest).map (fun n => -(n : Int))
  | '+' :: rest =>
    if rest.isEmpty then none
    else (decDigits? rest).map (fun n => (n : Int))
  | l => (decDigits? l).map (fun n => (n : Int))

/-- The three-way SQL CASE expression of get_student_dashboard and
get_student_assignments in student.py: pending when the left-joined
submission id is NULL, submitted when marks is NULL, else evaluated. -/
def submission_status_case (submission_id : Option Int) (marks : Option ℚ) :
    String :=
  if submission_id = none then "pending"
  else if marks = none then "submitted"
  else "evaluated"

/-- The two-way SQL CASE expression of get_submission_by_id,
get_teacher_dashboard and get_teacher_submissions in teacher.py:
submitted when marks is NULL, else evaluated.  It reads marks only. -/
def status_marks_case (marks : Option ℚ) : String :=
  if marks = none then "submitted" else "evaluated"

/-- GET /submission/id of teacher.py: fetches the submission row joined
with its assignment; an absent row is a 404, a present row carries the
two-way computed status. -/
def get_submission_by_id (st : AppState) (submission_id : Int) :
    Nat × Option String :=
  match (st.submissions.filter (fun s =>
      s.submission_id == submission_id &&
      st.assignments.any (fun a => a.assignment_id == s.assignment_id))).head? with
  | none => (404, none)
  | some s => (200, some (status_marks_case s.marks))

/-- C4: the Status Resolver is total over every (has_submission, marks)
pair and yields pending exactly when the submission id is NULL,
submitted when a row exists with NULL marks, evaluated when a row exists
with non-NULL marks.  The four conjuncts enumerate every constructor
combination of the two option arguments, so totality and the three-way
rule both follow. -/
theorem c4_status_resolver_total (sid : Int) (q : ℚ) :
    submission_status_case none none = "pending" ∧
    submission_status_case none (some q) = "pending" ∧
    submission_status_case (some sid) none = "submitted" ∧
    submission_status_case (some sid) (some q) = "evaluated" := by
  refine ⟨rfl, rfl, ?_, ?_⟩ <;> simp [submission_status_case]

/-- C5 as stated is false: on the input combination has_submission =
false, marks = NULL, the inline three-way expression yields pending
while the standalone two-way expression of the single-entity fetch
yields submitted, so the two do not agree on every input combination. -/
theorem c5_counterexample :
    submission_status_case none none ≠ status_marks_case none := by
  decide

/-- C5 amended: the inline three-way expression and the standalone
two-way expression agree on every input combination in which a
submission row exists; the single-entity fetch only ever evaluates the
two-way expression on existing rows, answering 404 when no row
matches. -/
theorem c5_status_agree_on_existing_rows (sid : Int) (marks : Option ℚ)
    (st : AppState) :
    submission_status_case (some sid) marks = status_marks_case marks ∧
    ((st.submissions.filter (fun s =>
        s.submission_id == sid &&
        st.assignments.any (fun a => a.assignment_id == s.assignment_id))).head?
          = none →
      get_submission_by_id st sid = (404, none)) := by
  constructor
  · simp [submission_status_case, status_marks_case]
  · intro h
    simp [get_submission_by_id, h]

/-- C5 amended, witness: concrete agreement for an existing row with
marks NULL, and a 404 from the single-entity fetch on the empty state. -/
theorem c5_status_agree_witness :
    submission_status_case (some 7) none = status_marks_case none ∧
    get_submission_by_id ⟨[], [], []⟩ 7 = (404, none) := by
  refine ⟨(c5_status_agree_on_existing_rows 7 none ⟨[], [], []⟩).1, ?_⟩
  exact (c5_status_agree_on_existing_rows 7 none ⟨[], [], []⟩).2 (by decide)

/-- A multipart file part: the client-sent filename, the payload bytes
and the content type.  An empty filename is what the browser sends when
no file was selected. -/
structure FilePart where
  filename : String
  content : List Nat
  content_type : String
deriving DecidableEq

/-- The serial generator for submission ids: one more than the largest
id present. -/
def nextSubmissionId (subs : List SubmissionRow) : Int :=
  (subs.map (fun s => s.submission_id)).foldl max 0 + 1

/-- Result of POST /student/student_id/submissions. -/
structure CreateResult where
  status : Nat
  success : Bool
  submission_id : Option Int
  file_url : Option String
  state : AppState
deriving DecidableEq

/-- The tail of create_submission after the upload step: converts the
form value of assignment_id with the Python int builtin, answering 400
on failure (note the state passed in already holds the uploaded blob),
then inserts the submission row with NULL marks and feedback and
answers 201.  No positivity check is performed on the parsed id. -/
def create_submission_db (st : AppState) (student_id : String)
    (assignment_id : String) (comments : String) (file_url : String)
    (now : Nat) : CreateResult :=
  match pyInt? assignment_id with
  | none => ⟨400, false, none, none, st⟩
  | some n =>
    let sid := nextSubmissionId st.submissions
    let row : SubmissionRow :=
      { submission_id := sid, assignment_id := n, student_id := student_id,
        file_url := some file_url,
        student_comments := if comments == "" then none else some comments,
        marks := none, feedback := none, submitted_at := now }
    ⟨201, true, some sid, some file_url,
      { st with submissions := st.submissions ++ [row] }⟩

/-- POST /student/student_id/submissions of student.py,
create_submission: requires a truthy assignment_id form value; uploads
the file to the submissions bucket when a file part with a non-empty
filename is present (a failing upload is a 500 with nothing changed);
without an uploaded file URL answers 400; only then parses
assignment_id and inserts the row.  key is the time-derived storage
filename the handler computes; uploadOk is whether the Supabase upload
succeeds. -/
def create_submission (st : AppState) (student_id : String)
    (assignment_id : Option String) (comments : Option String)
    (file : Option FilePart) (key : String) (uploadOk : Bool) (now : Nat) :
    CreateResult :=
  let commentsS := pyStrip (comments.getD "")
  if !(strTruthy assignment_id) then ⟨400, false, none, none, st⟩
  else
    match file with
    | some f =>
      if f.filename == "" then ⟨400, false, none, none, st⟩
      else if uploadOk then
        create_submission_db
          { st with blobs := uploadBlob st.blobs "submissions" key }
          student_id (assignment_id.getD "") commentsS
          (publicUrl "submissions" key) now
      else ⟨500, false, none, none, st⟩
    | none => ⟨400, false, none, none, st⟩

/-- Result of PUT /student/student_id/submission/submission_id. -/
structure ReplaceResult where
  status : Nat
  success : Bool
  file_url : Option String
  state : AppState
deriving DecidableEq

/-- PUT /student/student_id/submission/submission_id of student.py,
update_submission: 400 without a file part or with an empty filename;
uploads the new blob (a failing upload is a 500 with nothing changed);
reads the old file URL of the row keyed by submission_id ALONE; updates
file_url and submitted_at on rows matching both submission_id and
student_id; after the commit removes the old blob, swallowing removal
failure; answers 200 regardless of how many rows the update matched. -/
def update_submission (st : AppState) (student_id : String)
    (submission_id : Int) (file : Option FilePart) (key : String)
    (uploadOk removeOk : Bool) (now : Nat) : ReplaceResult :=
  match file with
  | none => ⟨400, false, none, st⟩
  | some f =>
    if f.filename == "" then ⟨400, false, none, st⟩
    else if uploadOk then
      let new_file_url := publicUrl "submissions" key
      let old := (st.submissions.filter
        (fun s => s.submission_id == submission_id)).head?
      let subs := st.submissions.map (fun s =>
        if s.submission_id == submission_id && s.student_id == student_id then
          { s with file_url := some new_file_url, submitted_at := now }
        else s)
      let blobs1 := uploadBlob st.blobs "submissions" key
      let blobs2 :=
        match old with
        | some o =>
          if strTruthy o.file_url && removeOk then
            removeBlob blobs1 "submissions" (lastSegment (o.file_url.getD ""))
          else blobs1
        | none => blobs1
      ⟨200, true, some new_file_url,
        { st with submissions := subs, blobs := blobs2 }⟩
    else ⟨500, false, none, st⟩

/-- Result of the teacher assignment mutation routes. -/
structure TeacherResult where
  status : Nat
  success : Bool
  state : AppState
deriving DecidableEq

/-- DELETE /teacher/teacher_id/assignment/assignment_id of teacher.py,
delete_assignment: reads the assignment row and the submission rows
keyed by assignment_id ALONE; best-effort removes the assignment blob
and every submission blob, each failure swallowed independently; then
deletes every submission row of the assignment, and deletes the
assignment row scoped by both assignment_id and teacher_id; answers 200
regardless of how many rows were deleted.  removeOk says per (bucket,
key) whether the storage removal succeeds. -/
def delete_assignment (st : AppState) (teacher_id : String)
    (assignment_id : Int) (removeOk : String → String → Bool) :
    TeacherResult :=
  let a_row := (st.assignments.filter
    (fun a => a.assignment_id == assignment_id)).head?
  let s_rows := st.submissions.filter
    (fun s => s.assignment_id == assignment_id)
  let blobs1 :=
    match a_row with
    | some a =>
      if strTruthy a.file_url &&
          removeOk "assignments" (lastSegment (a.file_url.getD "")) then
        removeBlob st.blobs "assignments" (lastSegment (a.file_url.getD ""))
      else st.blobs
    | none => st.blobs
  let blobs2 := s_rows.foldl (fun bs s =>
    if strTruthy s.file_url &&
        removeOk "submissions" (lastSegment (s.file_url.getD "")) then
      removeBlob bs "submissions" (lastSegment (s.file_url.getD ""))
    else bs) blobs1
  ⟨200, true,
    { assignments := st.assignments.filter (fun a =>
        !(a.assignment_id == assignment_id && a.teacher_id == teacher_id)),
      submissions := st.submissions.filter (fun s =>
        !(s.assignment_id == assignment_id)),
      blobs := blobs2 }⟩

/-- The PostgreSQL cast of a nullable text parameter into the integer
max_marks column: NULL casts to NULL, an integer literal casts to its
value, anything else raises (here: none, surfaced by the route as a
500). -/
def pgIntCast? : Option String → Option (Option Int)
  | none => some none
  | some s => (pyInt? s).map some

/-- Normalisation the update route applies to the optional text fields:
the form default is the empty string, stripped, and the empty result is
stored as NULL. -/
def optOfForm (o : Option String) : Option String :=
  if pyStrip (o.getD "") == "" then none else some (pyStrip (o.getD ""))

/-- The UPDATE statement of update_assignment: unconditionally sets
title, description, deadline, max_marks and subject on every row
matching both assignment_id and teacher_id, and sets file_url as well
exactly when a new file URL was produced.  A failing max_marks cast is
a database error, a 500 with the rows untouched. -/
def update_assignment_db (st : AppState) (teacher_id : String)
    (assignment_id : Int) (title : String) (description : Option String)
    (deadline max_marks : Option String) (subject : Option String)
    (new_file_url : Option String) : TeacherResult :=
  match pgIntCast? max_marks with
  | none => ⟨500, false, st⟩
  | some mm =>
    ⟨200, true,
      { st with assignments := st.assignments.map (fun a =>
          if a.assignment_id == assignment_id && a.teacher_id == teacher_id then
            { a with
              title := title,
              description := optOfForm description,
              deadline := deadline,
              max_marks := mm,
              subject := optOfForm subject,
              file_url := match new_file_url with
                | some u => some u
                | none => a.file_url }
          else a) }⟩

/-- PUT /teacher/teacher_id/assignment/assignment_id of teacher.py,
update_assignment: 400 when the stripped title is empty; uploads the
new attachment to the assignments bucket when a file part with a
non-empty filename is present (a failing upload is a 500 with nothing
changed); then runs the UPDATE of update_assignment_db. -/
def update_assignment (st : AppState) (teacher_id : String)
    (assignment_id : Int) (title description : Option String)
    (deadline max_marks : Option String) (subject : Option String)
    (file : Option FilePart) (key : String) (uploadOk : Bool) :
    TeacherResult :=
  let titleS := pyStrip (title.getD "")
  if titleS == "" then ⟨400, false, st⟩
  else
    match file with
    | some f =>
      if f.filename == "" then
        update_assignment_db st teacher_id assignment_id titleS description
          deadline max_marks subject none
      else if uploadOk then
        update_assignment_db
          { st with blobs := uploadBlob st.blobs "assignments" key }
          teacher_id assignment_id titleS description deadline max_marks
          subject (some (publicUrl "assignments" key))
      else ⟨500, false, st⟩
    | none =>
      update_assignment_db st teacher_id assignment_id titleS description
        deadline max_marks subject none

/-- Splitting a character list on the dot character, the Python split
method on a dot: an empty list yields one empty group, and each dot
opens a new group. -/
def splitDot : List Char → List (List Char)
  | [] => [[]]
  | c :: rest =>
    if c == '.' then [] :: splitDot rest
    else
      match splitDot rest with
      | h :: t => (c :: h) :: t
      | [] => [[c]]

/-- The Python float builtin on a string, restricted to the optionally
signed decimal forms the routes receive: an integer part, optionally a
dot and a fraction part, surrounding whitespace stripped; anything else
raises (here: none).  Exponent, infinity and nan spellings are outside
the model. -/
def pyFloat? (s : String) : Option ℚ :=
  let t := (pyStrip s).data
  let neg := match t with | '-' :: _ => true | _ => false
  let body := match t with
    | '-' :: r => r
    | '+' :: r => r
    | r => r
  let mag? : Option ℚ :=
    match splitDot body with
    | [w] =>
      if w.isEmpty then none else (decDigits? w).map (fun n => (n : ℚ))
    | [w, fr] =>
      if w.isEmpty && fr.isEmpty then none
      else
        match decDigits? w, decDigits? fr with
        | some wn, some fn =>
          some ((wn : ℚ) + (fn : ℚ) / ((10 : ℚ) ^ fr.length))
        | _, _ => none
    | _ => none
  mag?.map (fun m => if neg then -m else m)

/-- The JSON value bound to the marks key of the evaluate body: absent
covers both a missing key and JSON null, str a JSON string, num a JSON
number. -/
inductive MarksVal
  | absent
  | str (s : String)
  | num (q : ℚ)
deriving DecidableEq

/-- The emptiness test of the evaluate route, marks is None or marks
equals the empty string: true for an absent value and for the empty
string; a number never equals a string in Python. -/
def marksMissing : MarksVal → Bool
  | .absent => true
  | .str s => s == ""
  | .num _ => false

/-- The Python float builtin applied to the marks JSON value. -/
def marksFloat? : MarksVal → Option ℚ
  | .absent => none
  | .str s => pyFloat? s
  | .num q => some q

/-- Result of POST /teacher/submission/submission_id/evaluate. -/
structure EvaluateResult where
  status : Nat
  success : Bool
  state : AppState
deriving DecidableEq

/-- POST /teacher/submission/submission_id/evaluate of teacher.py,
evaluate_submission: 400 without a JSON body, 400 when marks is missing
or empty, 400 when the float conversion raises, 400 when the converted
marks are negative; otherwise the UPDATE sets marks and feedback on the
rows matching submission_id, and the route answers 404 when no row
matched the RETURNING clause, 200 otherwise.  The body is the marks
value and the optional feedback text. -/
def evaluate_submission (st : AppState) (submission_id : Int)
    (body : Option (MarksVal × Option String)) : EvaluateResult :=
  match body with
  | none => ⟨400, false, st⟩
  | some (mv, fbo) =>
    let feedback := pyStrip (fbo.getD "")
    if marksMissing mv then ⟨400, false, st⟩
    else
      match marksFloat? mv with
      | none => ⟨400, false, st⟩
      | some q =>
        if q < 0 then ⟨400, false, st⟩
        else
          let matched := st.submissions.any
            (fun r => r.submission_id == submission_id)
          let subs := st.submissions.map (fun r =>
            if r.submission_id == submission_id then
              { r with
                marks := some q,
                feedback := if feedback == "" then none else some feedback }
            else r)
          if matched then ⟨200, true, { st with submissions := subs }⟩
          else ⟨404, false, st⟩

/-- Concrete state for claim C1: one assignment owned by teacher t1 with
an attached file, one submission against it with a file, and both blobs
present in the store. -/
def c1Assignment : AssignmentRow :=
  { assignment_id := 1, title := "T", description := none,
    teacher_id := "t1", deadline := none, max_marks := some 100,
    file_url := some (publicUrl "assignments" "a.pdf"), subject := none }

/-- The submission row of the C1 state. -/
def c1Submission : SubmissionRow :=
  { submission_id := 7, assignment_id := 1, student_id := "s1",
    file_url := some (publicUrl "submissions" "s.pdf"),
    student_comments := none, marks := none, feedback := none,
    submitted_at := 0 }

/-- The C1 state. -/
def c1State : AppState :=
  { assignments := [c1Assignment], submissions := [c1Submission],
    blobs := [("assignments", "a.pdf"), ("submissions", "s.pdf")] }

/-- C1 as stated is false: teacher t2 does not own assignment 1, yet the
delete removes the submission row, removes both blobs from the store,
and only the assignment row survives.  The operation is therefore not a
zero-row no-op for a non-owning teacher. -/
theorem c1_counterexample :
    (delete_assignment c1State "t2" 1 (fun _ _ => true)).state.submissions
        = [] ∧
    (delete_assignment c1State "t2" 1 (fun _ _ => true)).state.blobs = [] ∧
    (delete_assignment c1State "t2" 1 (fun _ _ => true)).state.assignments
        = [c1Assignment] := by
  decide

/-- C1 amended: for a delete request by a teacher who does not own an
assignment row, that assignment row survives, but every submission row
of the targeted assignment id is deleted regardless of ownership (and
their blobs are best-effort removed): only the assignment-row delete is
scoped to the caller. -/
theorem c1_nonowner_delete_scope (st : AppState) (tid : String) (aid : Int)
    (rok : String → String → Bool) :
    (∀ a ∈ st.assignments, a.teacher_id ≠ tid →
      a ∈ (delete_assignment st tid aid rok).state.assignments) ∧
    (delete_assignment st tid aid rok).state.submissions
      = st.submissions.filter (fun s => !(s.assignment_id == aid)) := by
  constructor
  · intro a ha hne
    simp only [delete_assignment]
    simp only [List.mem_filter]
    refine ⟨ha, ?_⟩
    have : (a.teacher_id == tid) = false := by
      simp [hne]
    simp [this]
  · simp [delete_assignment]

/-- C1 amended, witness: the non-owning delete of the C1 state keeps the
assignment row and empties the submissions table. -/
theorem c1_nonowner_delete_scope_witness :
    c1Assignment ∈
      (delete_assignment c1State "t2" 1 (fun _ _ => true)).state.assignments ∧
    (delete_assignment c1State "t2" 1 (fun _ _ => true)).state.submissions
      = c1State.submissions.filter (fun s => !(s.assignment_id == 1)) := by
  exact ⟨(c1_nonowner_delete_scope c1State "t2" 1 (fun _ _ => true)).1
      c1Assignment (by decide) (by decide),
    (c1_nonowner_delete_scope c1State "t2" 1 (fun _ _ => true)).2⟩

/-- The file part used for the C2 failing input. -/
def c2File : FilePart :=
  { filename := "f.pdf", content := [1], content_type := "application/pdf" }

/-- C2 names a code bug: on a Replace whose (submission_id, student_id)
pair matches no row — here the submissions table is empty — the
specification requires a 404 with no state change, but the route
answers 200 with success and still uploads the new blob; the absent row
is silently ignored. -/
theorem c2_replace_missing_row_code_behavior :
    (update_submission ⟨[], [], []⟩ "s1" 1 (some c2File) "k.pdf" true true 5).status
        = 200 ∧
    (update_submission ⟨[], [], []⟩ "s1" 1 (some c2File) "k.pdf" true true 5).success
        = true ∧
    (update_submission ⟨[], [], []⟩ "s1" 1 (some c2File) "k.pdf" true true 5).state.blobs
        = [("submissions", "k.pdf")] := by
  decide

/-- C3: on a Replace with a non-empty file and a successful upload where
no submission row matches both submission_id and student_id, the route
answers 200 with success and the new public URL, uploads the new blob,
leaves every submission row unchanged, and — because the old-file
lookup is keyed by submission_id alone — when the first row carrying
that submission_id has a truthy file URL (necessarily another student
given the mismatch), that URL blob is removed from storage; when no
row carries the submission_id, the store only gains the new blob. -/
theorem c3_replace_unmatched_row_behavior (st : AppState)
    (student_id : String) (sid : Int) (f : FilePart) (key : String)
    (now : Nat) (hfn : f.filename ≠ "")
    (hnm : ∀ s ∈ st.submissions,
      ¬(s.submission_id = sid ∧ s.student_id = student_id)) :
    (update_submission st student_id sid (some f) key true true now).status
        = 200 ∧
    (update_submission st student_id sid (some f) key true true now).success
        = true ∧
    (update_submission st student_id sid (some f) key true true now).file_url
        = some (publicUrl "submissions" key) ∧
    (update_submission st student_id sid (some f) key true true now).state.submissions
        = st.submissions ∧
    (∀ o, (st.submissions.filter (fun s => s.submission_id == sid)).head?
        = some o →
      strTruthy o.file_url = true →
      (update_submission st student_id sid (some f) key true true now).state.blobs
        = removeBlob (uploadBlob st.blobs "submissions" key) "submissions"
            (lastSegment (o.file_url.getD ""))) ∧
    ((st.submissions.filter (fun s => s.submission_id == sid)).head? = none →
      (update_submission st student_id sid (some f) key true true now).state.blobs
        = uploadBlob st.blobs "submissions" key) := by
  have hfb : (f.filename == "") = false := by
    simp [hfn]
  have hmap : st.submissions.map (fun s =>
      if s.submission_id = sid ∧ s.student_id = student_id then
        { s with
          file_url := some (publicUrl "submissions" key),
          submitted_at := now }
      else s) = st.submissions := by
    have h1 : ∀ s ∈ st.submissions,
        (if s.submission_id = sid ∧ s.student_id = student_id then
          { s with
            file_url := some (publicUrl "submissions" key),
            submitted_at := now }
        else s) = s := by
      intro s hs
      exact if_neg (hnm s hs)
    calc st.submissions.map (fun s =>
          if s.submission_id = sid ∧ s.student_id = student_id then
            { s with
              file_url := some (publicUrl "submissions" key),
              submitted_at := now }
          else s)
        = st.submissions.map id := List.map_congr_left h1
      _ = st.submissions := List.map_id _
  refine ⟨?_, ?_, ?_, ?_, ?_, ?_⟩
  · simp [update_submission, hfb]
  · simp [update_submission, hfb]
  · simp [update_submission, hfb]
  · simp [update_submission, hfb, hmap]
  · intro o ho hurl
    simp [update_submission, hfb, ho, hurl]
  · intro ho
    simp [update_submission, hfb, ho]

/-- The pre-existing row of another student used for the C3 witness. -/
def c3OtherRow : SubmissionRow :=
  { submission_id := 7, assignment_id := 1, student_id := "bob",
    file_url := some (publicUrl "submissions" "old.pdf"),
    student_comments := none, marks := none, feedback := none,
    submitted_at := 0 }

/-- The C3 state: one submission owned by bob, its blob in the store. -/
def c3State : AppState :=
  { assignments := [], submissions := [c3OtherRow],
    blobs := [("submissions", "old.pdf")] }

/-- The uploaded file of the C3 witness. -/
def c3File : FilePart :=
  { filename := "new.pdf", content := [2], content_type := "application/pdf" }

/-- C3 witness: alice replaces submission 7 which belongs to bob — the
route answers 200, the rows are untouched, and the store holds the new
blob while the blob of bob has been removed. -/
theorem c3_replace_unmatched_row_witness :
    (update_submission c3State "alice" 7 (some c3File) "k.pdf" true true 9).status
        = 200 ∧
    (update_submission c3State "alice" 7 (some c3File) "k.pdf" true true 9).state.submissions
        = c3State.submissions ∧
    (update_submission c3State "alice" 7 (some c3File) "k.pdf" true true 9).state.blobs
        = removeBlob (uploadBlob c3State.blobs "submissions" "k.pdf")
            "submissions" (lastSegment ((c3OtherRow.file_url).getD "")) := by
  have h := c3_replace_unmatched_row_behavior c3State "alice" 7 c3File
    "k.pdf" 9 (by decide) (by decide)
  exact ⟨h.1, h.2.2.2.1, h.2.2.2.2.1 c3OtherRow (by decide) (by decide)⟩

/-- The file part used by the C6 theorems. -/
def c6File : FilePart :=
  { filename := "g.pdf", content := [3], content_type := "application/pdf" }

/-- C6 as stated is false: with a present but non-integer assignment_id
and a valid file, the route answers 400 only AFTER the blob upload —
the store has gained the blob, so the validation error is not returned
before any side effect. -/
theorem c6_counterexample :
    (create_submission ⟨[], [], []⟩ "s1" (some "abc") none (some c6File)
        "k.pdf" true 3).status = 400 ∧
    (create_submission ⟨[], [], []⟩ "s1" (some "abc") none (some c6File)
        "k.pdf" true 3).state.blobs = [("submissions", "k.pdf")] := by
  decide

/-- C6 amended: a missing or empty assignment_id form value, an absent
file part and an empty filename each answer 400 with no side effect; a
present assignment_id that the int builtin rejects answers 400 with
zero rows written but only after the blob upload; and an assignment_id
that parses to ANY integer — positivity is never checked, and file
emptiness is judged by the filename alone, never the content — reaches
the row insert and answers 201. -/
theorem c6_create_validation_order (st : AppState) (stud : String)
    (aids : String) (c : Option String) (f : FilePart) (key : String)
    (now : Nat) :
    (create_submission st stud none c (some f) key true now
       = ⟨400, false, none, none, st⟩) ∧
    (create_submission st stud (some "") c (some f) key true now
       = ⟨400, false, none, none, st⟩) ∧
    (aids ≠ "" →
      create_submission st stud (some aids) c none key true now
        = ⟨400, false, none, none, st⟩) ∧
    (aids ≠ "" → f.filename = "" →
      create_submission st stud (some aids) c (some f) key true now
        = ⟨400, false, none, none, st⟩) ∧
    (aids ≠ "" → f.filename ≠ "" → pyInt? aids = none →
      (create_submission st stud (some aids) c (some f) key true now).status
          = 400 ∧
      (create_submission st stud (some aids) c (some f) key true now).state.submissions
          = st.submissions ∧
      (create_submission st stud (some aids) c (some f) key true now).state.blobs
          = uploadBlob st.blobs "submissions" key) ∧
    (∀ n : Int, aids ≠ "" → f.filename ≠ "" → pyInt? aids = some n →
      (create_submission st stud (some aids) c (some f) key true now).status
          = 201 ∧
      (create_submission st stud (some aids) c (some f) key true now).state.submissions
          = st.submissions ++
            [{ submission_id := nextSubmissionId st.submissions,
               assignment_id := n, student_id := stud,
               file_url := some (publicUrl "submissions" key),
               student_comments := if pyStrip (c.getD "") == "" then none
                 else some (pyStrip (c.getD "")),
               marks := none, feedback := none, submitted_at := now }]) := by
  have hemp : ("" : String).isEmpty = true := rfl
  refine ⟨?_, ?_, ?_, ?_, ?_, ?_⟩
  · simp [create_submission, strTruthy]
  · simp [create_submission, strTruthy, hemp]
  · intro ha
    have hae : aids.isEmpty = false := by
      rw [Bool.eq_false_iff]
      intro h
      exact ha ((String.isEmpty_iff aids).mp h)
    simp [create_submission, strTruthy, hae]
  · intro ha hf
    have hae : aids.isEmpty = false := by
      rw [Bool.eq_false_iff]
      intro h
      exact ha ((String.isEmpty_iff aids).mp h)
    simp [create_submission, strTruthy, hae, hf]
  · intro ha hf hp
    have hae : aids.isEmpty = false := by
      rw [Bool.eq_false_iff]
      intro h
      exact ha ((String.isEmpty_iff aids).mp h)
    simp [create_submission, create_submission_db, strTruthy, hae, hf, hp]
  · intro n ha hf hp
    have hae : aids.isEmpty = false := by
      rw [Bool.eq_false_iff]
      intro h
      exact ha ((String.isEmpty_iff aids).mp h)
    simp [create_submission, create_submission_db, strTruthy, hae, hf, hp]

/-- C6 amended, witness: on the empty state, assignment_id abc with a
valid file answers 400 (after the upload), and assignment_id -5 is not
rejected — the insert proceeds and the route answers 201. -/
theorem c6_create_validation_order_witness :
    (create_submission ⟨[], [], []⟩ "s1" (some "abc") none (some c6File)
        "k.pdf" true 3).status = 400 ∧
    (create_submission ⟨[], [], []⟩ "s1" (some "-5") none (some c6File)
        "k.pdf" true 3).status = 201 := by
  have h1 := (c6_create_validation_order ⟨[], [], []⟩ "s1" "abc" none c6File
    "k.pdf" 3).2.2.2.2.1 (by decide) (by decide) (by decide)
  have h2 := (c6_create_validation_order ⟨[], [], []⟩ "s1" "-5" none c6File
    "k.pdf" 3).2.2.2.2.2 (-5) (by decide) (by decide) (by decide)
  exact ⟨h1.1, h2.1⟩

/-- C7: when the blob upload fails, Create and Replace each answer 500
and leave the whole state — in particular every table row — exactly as
it was; the failed upload adds nothing to the store either. -/
theorem c7_upload_failure_no_row_mutation (st : AppState) (stud : String)
    (aids : Option String) (c : Option String) (f : FilePart) (key : String)
    (now : Nat) (sid : Int)
    (hfn : f.filename ≠ "") (ha : strTruthy aids = true) :
    create_submission st stud aids c (some f) key false now
      = ⟨500, false, none, none, st⟩ ∧
    update_submission st stud sid (some f) key false true now
      = ⟨500, false, none, st⟩ := by
  constructor
  · simp [create_submission, ha, hfn]
  · simp [update_submission, hfn]

/-- The file part used by the C7 witness. -/
def c7File : FilePart :=
  { filename := "h.pdf", content := [4], content_type := "application/pdf" }

/-- C7 witness: on the empty state a failing upload makes both routes
answer 500 with the state intact. -/
theorem c7_upload_failure_witness :
    create_submission ⟨[], [], []⟩ "s1" (some "1") none (some c7File)
        "k.pdf" false 3
      = ⟨500, false, none, none, ⟨[], [], []⟩⟩ ∧
    update_submission ⟨[], [], []⟩ "s1" 1 (some c7File) "k.pdf" false true 3
      = ⟨500, false, none, ⟨[], [], []⟩⟩ :=
  c7_upload_failure_no_row_mutation ⟨[], [], []⟩ "s1" (some "1") none c7File
    "k.pdf" 3 1 (by decide) (by decide)

/-- Projection of the submission fields a Replace must not change: row
identity, assignment and student references, marks, feedback and the
student comment. -/
def submissionFrame (s : SubmissionRow) :
    Int × Int × String × Option ℚ × Option String × Option String :=
  (s.submission_id, s.assignment_id, s.student_id, s.marks, s.feedback,
    s.student_comments)

/-- C8: across any Replace call — in particular any successful one —
the per-row frame fields (ids, references, marks, feedback, comment)
are untouched: the result table has the same rows in the same order
with only file_url and submitted_at possibly changed.  Consequently the
two-way derived status of every row is unchanged: a row already
evaluated stays evaluated, re-uploading never clears marks. -/
theorem c8_replace_touches_only_file_and_time (st : AppState)
    (stud : String) (sid : Int) (file : Option FilePart) (key : String)
    (upOk rmOk : Bool) (now : Nat) :
    ((update_submission st stud sid file key upOk rmOk now).state.submissions).map
        submissionFrame
      = st.submissions.map submissionFrame ∧
    ((update_submission st stud sid file key upOk rmOk now).state.submissions).map
        (fun s => status_marks_case s.marks)
      = st.submissions.map (fun s => status_marks_case s.marks) := by
  constructor <;>
  · cases file with
    | none => rfl
    | some f =>
      by_cases hf : (f.filename == "") = true
      · simp [update_submission, hf]
      · cases upOk with
        | false => simp [update_submission, hf]
        | true =>
          simp only [update_submission, hf, Bool.false_eq_true, if_false,
            if_true, List.map_map]
          refine List.map_congr_left ?_
          intro s _
          by_cases hp : s.submission_id = sid ∧ s.student_id = stud
          · simp [hp, submissionFrame]
          · simp [hp, submissionFrame]

/-- The stored assignment of the C9 counterexample: description,
deadline, max_marks and subject all present. -/
def c9Assignment : AssignmentRow :=
  { assignment_id := 2, title := "Old", description := some "keep",
    teacher_id := "t1", deadline := some "2025-01-01 00:00",
    max_marks := some 50, file_url := none, subject := some "math" }

/-- C9 as stated is false: an owning-teacher update sending only a
title — every optional field omitted, no file — does not leave the
omitted stored values unchanged: description, deadline, max_marks and
subject are all overwritten with NULL by the unconditional UPDATE. -/
theorem c9_counterexample :
    (update_assignment ⟨[c9Assignment], [], []⟩ "t1" 2 (some "New") none
        none none none none "k" true).state.assignments
      = [{ assignment_id := 2, title := "New", description := none,
           teacher_id := "t1", deadline := none, max_marks := none,
           file_url := none, subject := none }] := by
  decide

/-- C9 amended: title is mandatory — a missing or whitespace title is a
400 with nothing changed; the attachment is indeed swapped only when a
new file is provided (without one the stored file_url is kept); but the
other optional fields are NOT preserved when omitted: every update
overwrites title, description, deadline, max_marks and subject on the
matching row with the request values, an omitted field becoming NULL. -/
theorem c9_update_field_semantics (st : AppState) (tid : String)
    (aid : Int) (title : String) (desc : Option String)
    (dl mm : Option String) (subj : Option String) (mmv : Option Int)
    (f : FilePart) (key : String) :
    (update_assignment st tid aid none desc dl mm subj none key true
       = ⟨400, false, st⟩) ∧
    (pyStrip title = "" →
      update_assignment st tid aid (some title) desc dl mm subj none key true
        = ⟨400, false, st⟩) ∧
    (pyStrip title ≠ "" → pgIntCast? mm = some mmv →
      (update_assignment st tid aid (some title) desc dl mm subj none key
          true).state.assignments
        = st.assignments.map (fun a =>
            if a.assignment_id = aid ∧ a.teacher_id = tid then
              { a with
                title := pyStrip title,
                description := optOfForm desc,
                deadline := dl,
                max_marks := mmv,
                subject := optOfForm subj }
            else a)) ∧
    (pyStrip title ≠ "" → f.filename ≠ "" → pgIntCast? mm = some mmv →
      (update_assignment st tid aid (some title) desc dl mm subj (some f)
          key true).state.assignments
        = st.assignments.map (fun a =>
            if a.assignment_id = aid ∧ a.teacher_id = tid then
              { a with
                title := pyStrip title,
                description := optOfForm desc,
                deadline := dl,
                max_marks := mmv,
                subject := optOfForm subj,
                file_url := some (publicUrl "assignments" key) }
            else a)) := by
  have hemp : (pyStrip "" == "") = true := rfl
  refine ⟨?_, ?_, ?_, ?_⟩
  · simp [update_assignment, hemp]
  · intro ht
    simp [update_assignment, ht]
  · intro ht hmm
    simp only [update_assignment, Option.getD_some]
    rw [if_neg (by simpa using ht)]
    simp [update_assignment_db, hmm]
  · intro ht hf hmm
    simp only [update_assignment, Option.getD_some]
    rw [if_neg (by simpa using ht)]
    simp [update_assignment_db, hmm, hf]

/-- C9 amended, witness: updating the C9 assignment with only a title
and no file keeps the stored attachment and clears the omitted
fields; the 400 branch fires for an omitted title. -/
theorem c9_update_field_semantics_witness :
    update_assignment ⟨[c9Assignment], [], []⟩ "t1" 2 none none none none
        none none "k" true
      = ⟨400, false, ⟨[c9Assignment], [], []⟩⟩ ∧
    (update_assignment ⟨[c9Assignment], [], []⟩ "t1" 2 (some "New") none
        none none none none "k" true).state.assignments
      = [c9Assignment].map (fun a =>
          if a.assignment_id = 2 ∧ a.teacher_id = "t1" then
            { a with
              title := pyStrip "New",
              description := optOfForm none,
              deadline := none,
              max_marks := none,
              subject := optOfForm none }
          else a) := by
  have h := c9_update_field_semantics ⟨[c9Assignment], [], []⟩ "t1" 2 "New"
    none none none none none ⟨"f", [], "t"⟩ "k"
  exact ⟨h.1, h.2.2.1 (by decide) (by decide)⟩

/-- Shape of a successful evaluation: when the converted marks are
non-negative and some row carries the submission id, the route answers
200 and the UPDATE rewrites marks and feedback on every matching row. -/
theorem evaluate_submission_matched_eq (st : AppState) (sid : Int) (q : ℚ)
    (fb : Option String) (hq : ¬q < 0)
    (hmatch : (st.submissions.any (fun r => r.submission_id == sid)) = true) :
    evaluate_submission st sid (some (.num q, fb))
      = ⟨200, true,
        { st with submissions := st.submissions.map (fun r =>
            if r.submission_id = sid then
              { r with
                marks := some q,
                feedback := if pyStrip (fb.getD "") == "" then none
                  else some (pyStrip (fb.getD "")) }
            else r) }⟩ := by
  simp [evaluate_submission, marksMissing, marksFloat?, hq, hmatch]

/-- Membership in the table rewritten by a successful evaluation forces
the marks of every row carrying the target id to the evaluated value. -/
theorem evaluate_marks_of_mem (l : List SubmissionRow) (sid : Int) (q : ℚ)
    (fbv : Option String) (r : SubmissionRow)
    (hr : r ∈ l.map (fun r =>
      if r.submission_id = sid then
        { r with marks := some q, feedback := fbv }
      else r))
    (hid : r.submission_id = sid) : r.marks = some q := by
  rcases List.mem_map.mp hr with ⟨r0, _, hro⟩
  by_cases h0 : r0.submission_id = sid
  · rw [if_pos h0] at hro
    rw [← hro]
  · rw [if_neg h0] at hro
    rw [← hro] at hid
    exact absurd hid h0

/-- C10: evaluate answers 400 when the body is missing, when marks is
missing or empty, when the float conversion rejects the value, and when
the converted marks are negative — each time with nothing changed; it
answers 404 with nothing changed when no row carries the submission id;
when a row exists and marks are a non-negative number it answers 200
and every row with that id now stores those marks (so its two-way
status is evaluated); and a second evaluation with a new value
overwrites the stored marks rather than failing or appending. -/
theorem c10_evaluate_semantics (st : AppState) (sid : Int)
    (fb fb2 : Option String) (s : String) (q q2 : ℚ) :
    (evaluate_submission st sid none = ⟨400, false, st⟩) ∧
    (evaluate_submission st sid (some (.absent, fb)) = ⟨400, false, st⟩) ∧
    (evaluate_submission st sid (some (.str "", fb)) = ⟨400, false, st⟩) ∧
    (s ≠ "" → pyFloat? s = none →
      evaluate_submission st sid (some (.str s, fb)) = ⟨400, false, st⟩) ∧
    (q < 0 →
      evaluate_submission st sid (some (.num q, fb)) = ⟨400, false, st⟩) ∧
    (0 ≤ q → (st.submissions.any (fun r => r.submission_id == sid)) = false →
      evaluate_submission st sid (some (.num q, fb)) = ⟨404, false, st⟩) ∧
    (0 ≤ q → (st.submissions.any (fun r => r.submission_id == sid)) = true →
      (evaluate_submission st sid (some (.num q, fb))).status = 200 ∧
      (evaluate_submission st sid (some (.num q, fb))).success = true ∧
      (∀ r ∈ (evaluate_submission st sid (some (.num q, fb))).state.submissions,
        r.submission_id = sid →
          r.marks = some q ∧ status_marks_case r.marks = "evaluated")) ∧
    (0 ≤ q → 0 ≤ q2 →
      (st.submissions.any (fun r => r.submission_id == sid)) = true →
      ∀ r ∈ (evaluate_submission
          (evaluate_submission st sid (some (.num q, fb))).state sid
          (some (.num q2, fb2))).state.submissions,
        r.submission_id = sid → r.marks = some q2) := by
  have habs : marksMissing .absent = true := rfl
  have hstr0 : marksMissing (.str "") = true := rfl
  refine ⟨rfl, ?_, ?_, ?_, ?_, ?_, ?_, ?_⟩
  · simp [evaluate_submission, habs]
  · simp [evaluate_submission, hstr0]
  · intro hs hp
    have hm : marksMissing (.str s) = false := by
      simp [marksMissing, hs]
    simp [evaluate_submission, hm, marksFloat?, hp]
  · intro hq
    simp [evaluate_submission, marksMissing, marksFloat?, hq]
  · intro hq hmatch
    have hlt : ¬(q < 0) := not_lt.mpr hq
    simp [evaluate_submission, marksMissing, marksFloat?, hlt, hmatch]
  · intro hq hmatch
    have hlt : ¬(q < 0) := not_lt.mpr hq
    rw [evaluate_submission_matched_eq st sid q fb hlt hmatch]
    refine ⟨rfl, rfl, ?_⟩
    intro r hr hid
    refine ⟨evaluate_marks_of_mem st.submissions sid q _ r hr hid, ?_⟩
    rw [evaluate_marks_of_mem st.submissions sid q _ r hr hid]
    simp [status_marks_case]
  · intro hq hq2 hmatch r hr hid
    have hlt : ¬(q < 0) := not_lt.mpr hq
    have hlt2 : ¬(q2 < 0) := not_lt.mpr hq2
    rw [evaluate_submission_matched_eq st sid q fb hlt hmatch] at hr
    have hmatch2 : ((st.submissions.map (fun r =>
        if r.submission_id = sid then
          { r with
            marks := some q,
            feedback := if pyStrip (fb.getD "") == "" then none
              else some (pyStrip (fb.getD "")) }
          else r)).any (fun r => r.submission_id == sid)) = true := by
      rcases List.any_eq_true.mp hmatch with ⟨r1, hr1, hbe⟩
      have h1 : r1.submission_id = sid := by
        simpa using hbe
      refine List.any_eq_true.mpr ?_
      refine ⟨if r1.submission_id = sid then
        { r1 with
          marks := some q,
          feedback := if pyStrip (fb.getD "") == "" then none
            else some (pyStrip (fb.getD "")) }
        else r1, List.mem_map.mpr ⟨r1, hr1, rfl⟩, ?_⟩
      simp [h1]
    rw [evaluate_submission_matched_eq _ sid q2 fb2 hlt2 hmatch2] at hr
    exact evaluate_marks_of_mem _ sid q2 _ r hr hid

/-- The submission row of the C10 witness, not yet evaluated. -/
def c10Row : SubmissionRow :=
  { submission_id := 4, assignment_id := 1, student_id := "s1",
    file_url := some (publicUrl "submissions" "u.pdf"),
    student_comments := none, marks := none, feedback := none,
    submitted_at := 0 }

/-- The C10 state. -/
def c10State : AppState :=
  { assignments := [], submissions := [c10Row], blobs := [] }

/-- C10 witness: evaluating a missing id answers 404 with nothing
changed; evaluating row 4 with marks 85 answers 200; re-evaluating with
90 leaves the row holding marks 90. -/
theorem c10_evaluate_semantics_witness :
    evaluate_submission c10State 9 (some (.num 85, none))
      = ⟨404, false, c10State⟩ ∧
    (evaluate_submission c10State 4 (some (.num 85, none))).status = 200 ∧
    (∀ r ∈ (evaluate_submission
        (evaluate_submission c10State 4 (some (.num 85, none))).state 4
        (some (.num 90, none))).state.submissions,
      r.submission_id = 4 → r.marks = some 90) := by
  have h := c10_evaluate_semantics c10State 4 none none "x" 85 90
  have h9 := c10_evaluate_semantics c10State 9 none none "x" 85 90
  exact ⟨h9.2.2.2.2.2.1 (by decide) (by decide),
    (h.2.2.2.2.2.2.1 (by decide) (by decide)).1,
    h.2.2.2.2.2.2.2 (by decide) (by decide) (by decide)⟩
